import Mathlib

/-!
Verification of the graphicslab mesh-viewer core against its specification.

The development shallowly embeds the Python sources:
  src/graphicslab/lib/mesh_loader.py      (MeshLoader, load_proc result handling)
  src/graphicslab/mesh_viewer/viewport.py (Viewport: wire edges, matrices, uniforms)
  src/graphicslab/lib/shader.py           (Shader: construction, hot reload)
  src/graphicslab/mesh_viewer/window.py   (MeshViewerWindow: per-frame calls, angle wrap)

Numeric arrays are embedded as lists of rational triples (the f4/u4 casts and
the tobytes serialization are content-preserving and are modelled as the
identity on that content); camera math over machine floats is embedded over
the reals; Python exceptions are embedded with Except.
-/

/-! ### Python runtime values reaching MeshLoader.load

The worker process (load_proc) sends over the pipe either the object returned
by trimesh.load — a Trimesh, a Python list of sub-meshes, or some other
object such as a Scene — or None when the parse raised.  The guards in
MeshLoader.load test the runtime class of the received object with the
operator is.  CPython semantics embedded here: type(x) of a Python list is
the builtin class list, never the typing.List generic alias object that the
module imported with from typing import List; hence typingListAlias is a
possible operand of the comparison but never a value of typeOf. -/

/-- Vertex data: one row of a float array, embedded as a rational triple. -/
abbrev Vec3 := ℚ × ℚ × ℚ

/-- Face data: one row of the integer index array. -/
abbrev Tri := Nat × Nat × Nat

/-- Embedding of trimesh.Trimesh: the fields MeshLoader.load reads. -/
structure TriMesh where
  vertices : List Vec3
  vertex_normals : List Vec3
  faces : List Tri
deriving DecidableEq

/-- Runtime class objects that can appear in the type tests of
MeshLoader.load.  typingListAlias stands for the imported typing.List
object; otherClass covers every further runtime class (Scene, PointCloud,
NoneType of unexpected payloads, and so on). -/
inductive PyTypeObj where
  | trimeshClass
  | listClass
  | noneType
  | typingListAlias
  | otherClass (tag : String)
deriving DecidableEq

/-- Values the worker can send over the one-shot pipe. -/
inductive PyVal where
  | trimeshVal (m : TriMesh)
  | listVal (ms : List TriMesh)
  | noneVal
  | otherVal (tag : String)
deriving DecidableEq

/-- CPython type(x): the runtime class of a value.  A Python list has class
listClass; no value has the typing.List alias as its runtime class. -/
def typeOf : PyVal → PyTypeObj
  | PyVal.trimeshVal _ => PyTypeObj.trimeshClass
  | PyVal.listVal _ => PyTypeObj.listClass
  | PyVal.noneVal => PyTypeObj.noneType
  | PyVal.otherVal tag => PyTypeObj.otherClass tag

/-- State of a MeshLoader instance: the published mesh fields plus the two
guarded flags (mesh_loader.py, class attributes of MeshLoader). -/
structure MeshLoader where
  mesh : Option TriMesh
  vertex_arr : List Vec3
  normal_arr : List Vec3
  index_arr : List Tri
  vertex_buf : List Vec3
  normal_buf : List Vec3
  index_buf : List Tri
  loading : Bool
  loaded : Bool
deriving DecidableEq

/-- Which branch of the if/elif/else in MeshLoader.load handles a given
worker result (mesh_loader.py lines 55-77). -/
inductive LoadBranch where
  | single
  | multi
  | unknown
deriving DecidableEq

/-- Branch selection of MeshLoader.load: first guard is
type(mesh) is trimesh.Trimesh, second guard is type(mesh) is List where
List is the typing.List alias. -/
def loadBranch (mesh : PyVal) : LoadBranch :=
  if typeOf mesh = PyTypeObj.trimeshClass then LoadBranch.single
  else if typeOf mesh = PyTypeObj.typingListAlias then LoadBranch.multi
  else LoadBranch.unknown

/-- Embedding of MeshLoader.load given the value received from the worker:
set loading, dispatch on the runtime type of the result — publishing the
buffers and setting loaded only in the Trimesh branch, the two failure
branches only log — then clear loading.  The wildcard arm of the inner
match is unreachable (typeOf forces the constructor) and returns the state
unchanged. -/
def MeshLoader.load (s : MeshLoader) (mesh : PyVal) : MeshLoader :=
  let s1 : MeshLoader := { s with loading := true }
  let s2 : MeshLoader :=
    if typeOf mesh = PyTypeObj.trimeshClass then
      match mesh with
      | PyVal.trimeshVal m =>
        { s1 with
          mesh := some m
          vertex_arr := m.vertices
          normal_arr := m.vertex_normals
          index_arr := m.faces
          vertex_buf := m.vertices
          normal_buf := m.vertex_normals
          index_buf := m.faces
          loaded := true }
      | _ => s1
    else if typeOf mesh = PyTypeObj.typingListAlias then
      s1
    else
      s1
  { s2 with loading := false }

/-- Embedding of MeshLoader.is_loaded: under the lock, read the loaded flag
and clear it when it was set; returns the polled value and the new state. -/
def MeshLoader.is_loaded (s : MeshLoader) : Bool × MeshLoader :=
  if s.loaded then (true, { s with loaded := false }) else (false, s)

/-- Embedding of MeshLoader.is_loading. -/
def MeshLoader.is_loading (s : MeshLoader) : Bool :=
  s.loading

/-- Results of n successive is_loaded polls starting from state s. -/
def MeshLoader.pollResults (s : MeshLoader) : Nat → List Bool
  | 0 => []
  | Nat.succ n =>
    (MeshLoader.is_loaded s).1 :: MeshLoader.pollResults (MeshLoader.is_loaded s).2 n

/-! ### Wireframe edge computation (Viewport.load_mesh, viewport.py 122-132)

The code stacks the three column pairs (i0,i1), (i1,i2), (i0,i2) of the
index array, transposes to rows, sorts each row in place (numpy sort along
axis 1 of a 2-column row puts min first), and deduplicates with
numpy.unique along axis 0, which returns the distinct rows in ascending
lexicographic order.  The unique step is embedded as an insertion sort by
the lexicographic order followed by dedup. -/

/-- Rows of wire_arr before per-row sorting: the transpose of the hstack of
the three vstacked column pairs, in the order the code stacks them. -/
def wireRows (index_arr : List Tri) : List (Nat × Nat) :=
  (index_arr.map (fun t => (t.1, t.2.1)))
    ++ (index_arr.map (fun t => (t.2.1, t.2.2)))
    ++ (index_arr.map (fun t => (t.1, t.2.2)))

/-- Per-row sort of a 2-column row (wire_arr.sort(axis=1)). -/
def rowSort (e : Nat × Nat) : Nat × Nat :=
  (min e.1 e.2, max e.1 e.2)

/-- Lexicographic order on rows, as numpy.unique sorts them. -/
def edgeLeB (a b : Nat × Nat) : Bool :=
  decide (a.1 < b.1) || (decide (a.1 = b.1) && decide (a.2 ≤ b.2))

/-- Insertion step of the sorting pass of numpy.unique. -/
def insertEdge (e : Nat × Nat) : List (Nat × Nat) → List (Nat × Nat)
  | [] => [e]
  | f :: fs => if edgeLeB e f then e :: f :: fs else f :: insertEdge e fs

/-- Sorting pass of numpy.unique along axis 0. -/
def sortEdges : List (Nat × Nat) → List (Nat × Nat)
  | [] => []
  | e :: es => insertEdge e (sortEdges es)

/-- numpy.unique along axis 0: distinct rows in ascending lexicographic
order. -/
def npUniqueRows (l : List (Nat × Nat)) : List (Nat × Nat) :=
  (sortEdges l).dedup

/-- The wireframe edge index rows Viewport.load_mesh uploads to wire_ibo,
as a function of the index array of the loaded mesh. -/
def wireEdges (index_arr : List Tri) : List (Nat × Nat) :=
  npUniqueRows ((wireRows index_arr).map rowSort)

/-- WireEdgeSet as the specification words it: for every triangle (a,b,c)
take the pairs (a,b), (b,c), (a,c), canonicalize each as (min,max), and
deduplicate. -/
def specWireEdgeSet (tris : List Tri) : Finset (Nat × Nat) :=
  (tris.flatMap (fun t =>
    [(min t.1 t.2.1, max t.1 t.2.1),
     (min t.2.1 t.2.2, max t.2.1 t.2.2),
     (min t.1 t.2.2, max t.1 t.2.2)])).toFinset

theorem perm_insertEdge (e : Nat × Nat) (l : List (Nat × Nat)) :
    (insertEdge e l).Perm (e :: l) := by
  induction l with
  | nil => simp [insertEdge]
  | cons f fs ih =>
    by_cases h : edgeLeB e f
    · simp [insertEdge, h]
    · simp only [insertEdge, if_neg h]
      exact List.Perm.trans (List.Perm.cons f ih) (List.Perm.swap e f fs)

theorem perm_sortEdges (l : List (Nat × Nat)) : (sortEdges l).Perm l := by
  induction l with
  | nil => simp [sortEdges]
  | cons e es ih =>
    exact List.Perm.trans (perm_insertEdge e (sortEdges es)) (List.Perm.cons e ih)

theorem mem_sortEdges (a : Nat × Nat) (l : List (Nat × Nat)) :
    a ∈ sortEdges l ↔ a ∈ l :=
  (perm_sortEdges l).mem_iff

theorem length_sortEdges (l : List (Nat × Nat)) : (sortEdges l).length = l.length :=
  (perm_sortEdges l).length_eq

theorem mem_wireEdges (tris : List Tri) (e : Nat × Nat) :
    e ∈ wireEdges tris ↔ e ∈ (wireRows tris).map rowSort := by
  rw [wireEdges, npUniqueRows, List.mem_dedup, mem_sortEdges]

theorem rowSorted_toFinset (tris : List Tri) :
    ((wireRows tris).map rowSort).toFinset = specWireEdgeSet tris := by
  ext e
  simp only [List.mem_toFinset, wireRows, specWireEdgeSet, List.mem_flatMap, List.mem_map,
    List.mem_append, rowSort, List.mem_cons, List.not_mem_nil, or_false]
  constructor
  · rintro ⟨x, hx, rfl⟩
    rcases hx with (⟨t, ht, rfl⟩ | ⟨t, ht, rfl⟩) | ⟨t, ht, rfl⟩
    · exact ⟨t, ht, Or.inl rfl⟩
    · exact ⟨t, ht, Or.inr (Or.inl rfl)⟩
    · exact ⟨t, ht, Or.inr (Or.inr rfl)⟩
  · rintro ⟨t, ht, (rfl | rfl | rfl)⟩
    · exact ⟨(t.1, t.2.1), Or.inl (Or.inl ⟨t, ht, rfl⟩), rfl⟩
    · exact ⟨(t.2.1, t.2.2), Or.inl (Or.inr ⟨t, ht, rfl⟩), rfl⟩
    · exact ⟨(t.1, t.2.2), Or.inr ⟨t, ht, rfl⟩, rfl⟩

/-- Claim C2, counterexample: for the degenerate single-triangle index list
[[0,0,1]] the computed wireframe edge set contains the edge (0,0), so it is
not the case that every edge (a,b) has a < b. -/
theorem wireEdges_degenerate_counterexample :
    ¬ (∀ e ∈ wireEdges [(0, 0, 1)], e.1 < e.2) := by
  decide

/-- Claim C2 (amended): for every loaded mesh with T triangles the wireframe
edge rows built by Viewport.load_mesh equal, as a set, the WireEdgeSet the
specification describes; the row list has at most 3T entries, every edge
(a,b) satisfies a ≤ b, there are no duplicate edges, and for the single
triangle [[0,1,2]] the rows are (0,1), (0,2), (1,2). -/
theorem wireEdges_spec (tris : List Tri) :
    (wireEdges tris).toFinset = specWireEdgeSet tris ∧
    (wireEdges tris).length ≤ 3 * tris.length ∧
    (∀ e ∈ wireEdges tris, e.1 ≤ e.2) ∧
    (wireEdges tris).Nodup ∧
    wireEdges [(0, 1, 2)] = [(0, 1), (0, 2), (1, 2)] := by
  refine ⟨?_, ?_, ?_, List.nodup_dedup _, by decide⟩
  · rw [← rowSorted_toFinset tris]
    ext e
    rw [List.mem_toFinset, List.mem_toFinset, mem_wireEdges]
  · have h1 : (wireEdges tris).length ≤ (sortEdges ((wireRows tris).map rowSort)).length :=
      (List.dedup_sublist _).length_le
    have h2 : (sortEdges ((wireRows tris).map rowSort)).length
        = ((wireRows tris).map rowSort).length := length_sortEdges _
    have h3 : ((wireRows tris).map rowSort).length = 3 * tris.length := by
      simp [wireRows]
      omega
    omega
  · intro e he
    rcases List.mem_map.mp ((mem_wireEdges tris e).mp he) with ⟨x, _, rfl⟩
    exact min_le_max

/-- Claim C2 witness: the amended statement evaluated at the one-triangle
mesh [[0,1,2]] of the spec scenario. -/
theorem wireEdges_spec_witness :
    (wireEdges [(0, 1, 2)]).toFinset = specWireEdgeSet [(0, 1, 2)] ∧
    (wireEdges [(0, 1, 2)]).length ≤ 3 * [(0, 1, 2)].length ∧
    (∀ e ∈ wireEdges [((0 : Nat), (1 : Nat), (2 : Nat))], e.1 ≤ e.2) ∧
    (wireEdges [(0, 1, 2)]).Nodup ∧
    wireEdges [(0, 1, 2)] = [(0, 1), (0, 2), (1, 2)] :=
  wireEdges_spec [(0, 1, 2)]

theorem pollResults_of_not_loaded (s : MeshLoader) (h : s.loaded = false) :
    ∀ n, (MeshLoader.pollResults s n).count true = 0 := by
  intro n
  induction n generalizing s with
  | zero => simp [MeshLoader.pollResults]
  | succ n ih =>
    simp only [MeshLoader.pollResults, MeshLoader.is_loaded, h, if_false]
    simp [ih s h]

/-- Claim C3: is_loaded has read-and-clear semantics — with the loaded flag
set, the first poll returns true and clears the flag, and any number of
further polls yields no further true, so across any n+1 successive polls
exactly one returns true. -/
theorem is_loaded_read_and_clear (s : MeshLoader) (h : s.loaded = true) :
    (MeshLoader.is_loaded s).1 = true ∧
    (MeshLoader.is_loaded s).2.loaded = false ∧
    (∀ n : Nat, (MeshLoader.pollResults s (n + 1)).count true = 1) := by
  refine ⟨by simp [MeshLoader.is_loaded, h], by simp [MeshLoader.is_loaded, h], ?_⟩
  intro n
  simp only [MeshLoader.pollResults, MeshLoader.is_loaded, h, if_true]
  have h0 : (MeshLoader.pollResults { s with loaded := false } n).count true = 0 :=
    pollResults_of_not_loaded _ rfl n
  simp [h0]

/-- Claim C3 witness: read-and-clear evaluated on a concrete loader state
whose loaded flag is set. -/
theorem is_loaded_read_and_clear_witness :
    (MeshLoader.is_loaded ⟨none, [], [], [], [], [], [], false, true⟩).1 = true ∧
    (MeshLoader.is_loaded ⟨none, [], [], [], [], [], [], false, true⟩).2.loaded = false ∧
    (∀ n : Nat,
      (MeshLoader.pollResults ⟨none, [], [], [], [], [], [], false, true⟩ (n + 1)).count true
        = 1) :=
  is_loaded_read_and_clear ⟨none, [], [], [], [], [], [], false, true⟩ rfl

/-- Claim C4: when the worker result is not a single Trimesh (None from a
crashed or failed parse, an actual list of sub-meshes, or any other type),
MeshLoader.load leaves every published mesh field unchanged, finishes with
the loading flag cleared, and leaves the loaded flag exactly as it was, so
this load never makes is_loaded return true. -/
theorem load_failure_preserves_fields (s : MeshLoader) (v : PyVal)
    (h : typeOf v ≠ PyTypeObj.trimeshClass) :
    (s.load v).mesh = s.mesh ∧
    (s.load v).vertex_arr = s.vertex_arr ∧
    (s.load v).normal_arr = s.normal_arr ∧
    (s.load v).index_arr = s.index_arr ∧
    (s.load v).vertex_buf = s.vertex_buf ∧
    (s.load v).normal_buf = s.normal_buf ∧
    (s.load v).index_buf = s.index_buf ∧
    (s.load v).loading = false ∧
    (s.load v).loaded = s.loaded := by
  by_cases h2 : typeOf v = PyTypeObj.typingListAlias <;>
    simp [MeshLoader.load, h, h2]

/-- Claim C4 witness: a null worker result (parse failure) against a state
holding a previously published mesh leaves all of it in place. -/
theorem load_failure_preserves_fields_witness :
    typeOf PyVal.noneVal ≠ PyTypeObj.trimeshClass ∧
    ((MeshLoader.load ⟨some ⟨[], [], [(0, 1, 2)]⟩, [], [], [(0, 1, 2)], [], [], [(0, 1, 2)],
        false, false⟩ PyVal.noneVal).mesh = some ⟨[], [], [(0, 1, 2)]⟩ ∧
      (MeshLoader.load ⟨some ⟨[], [], [(0, 1, 2)]⟩, [], [], [(0, 1, 2)], [], [], [(0, 1, 2)],
        false, false⟩ PyVal.noneVal).loading = false ∧
      (MeshLoader.load ⟨some ⟨[], [], [(0, 1, 2)]⟩, [], [], [(0, 1, 2)], [], [], [(0, 1, 2)],
        false, false⟩ PyVal.noneVal).loaded = false) := by
  have h := load_failure_preserves_fields
    ⟨some ⟨[], [], [(0, 1, 2)]⟩, [], [], [(0, 1, 2)], [], [], [(0, 1, 2)], false, false⟩
    PyVal.noneVal (by decide)
  exact ⟨by decide, h.1, h.2.2.2.2.2.2.2.1, h.2.2.2.2.2.2.2.2⟩

/-- Claim C10: the multi-mesh branch of MeshLoader.load, guarded by
type(mesh) is List with List the typing.List alias, is unreachable — no
worker result selects it, and an actual Python list of sub-meshes is
handled by the final unknown-mesh-type branch. -/
theorem multi_mesh_branch_unreachable :
    (∀ v : PyVal, loadBranch v ≠ LoadBranch.multi) ∧
    (∀ ms : List TriMesh, loadBranch (PyVal.listVal ms) = LoadBranch.unknown) := by
  constructor
  · intro v
    cases v <;> simp [loadBranch, typeOf]
  · intro ms
    simp [loadBranch, typeOf]

/-! ### Shader construction and hot reload (lib/shader.py)

A shader owns two source files, their last-seen modification times, and the
active GPU program.  The GL compiler is external: it is embedded as an
oracle compileOk deciding whether a vertex/fragment source pair links.  A
successful ctx.program call yields a program carrying the two source texts;
the built-in error (fallback) program is the distinguished errorProgram.
File-system state is embedded per file: existence, regular-file flag,
readability, current text and current modification time. -/

/-- Embedding of one shader source file as the file system presents it. -/
structure FsFile where
  fexists : Bool
  isFile : Bool
  readable : Bool
  text : String
  mtime : Int
deriving DecidableEq

/-- The pair of files a Shader watches. -/
structure ShaderFS where
  vert : FsFile
  frag : FsFile
deriving DecidableEq

/-- Embedding of a linked moderngl Program: either the program compiled
from a source pair, or the static fallback error program. -/
inductive GlProgram where
  | compiled (vert frag : String)
  | errorProgram
deriving DecidableEq

/-- State of a Shader instance (shader.py class attributes). -/
structure ShaderState where
  vert_src : String
  frag_src : String
  vert_last_change : Int
  frag_last_change : Int
  program : GlProgram
deriving DecidableEq

/-- Embedding of Python exceptions that the shader code can raise. -/
inductive PyError where
  | runtimeError (msg : String)
  | oserror
  | attributeError (name : String)
deriving DecidableEq

/-- Embedding of Shader.compile_shader: try to compile the current sources;
on failure catch the exception and install the error program instead.  This
function never raises. -/
def compile_shader (compileOk : String → String → Bool) (s : ShaderState) : ShaderState :=
  if compileOk s.vert_src s.frag_src then
    { s with program := GlProgram.compiled s.vert_src s.frag_src }
  else
    { s with program := GlProgram.errorProgram }

/-- Embedding of Shader.__init__: the four existence and regular-file
checks in source order, the two guarded reads, then compile_shader.  The
program field of the record passed to compile_shader is a seed value only:
compile_shader assigns it in both of its branches. -/
def Shader.init (compileOk : String → String → Bool) (fs : ShaderFS) :
    Except PyError ShaderState :=
  if fs.vert.fexists = false then
    Except.error (PyError.runtimeError "Vertex shader does not exist.")
  else if fs.vert.isFile = false then
    Except.error (PyError.runtimeError "Vertex shader is not a file.")
  else if fs.frag.fexists = false then
    Except.error (PyError.runtimeError "Fragment shader does not exist.")
  else if fs.frag.isFile = false then
    Except.error (PyError.runtimeError "Fragment shader is not a file.")
  else if fs.vert.readable = false then
    Except.error (PyError.runtimeError "Vertex shader loaded failed.")
  else if fs.frag.readable = false then
    Except.error (PyError.runtimeError "Fragment shader loaded failed.")
  else
    Except.ok (compile_shader compileOk
      { vert_src := fs.vert.text
        frag_src := fs.frag.text
        vert_last_change := fs.vert.mtime
        frag_last_change := fs.frag.mtime
        program := GlProgram.errorProgram })

/-- Modification time reload_shader sees for the vertex file: the fresh
stat result when the file exists, the remembered one otherwise. -/
def vertChangeOf (fs : ShaderFS) (s : ShaderState) : Int :=
  if fs.vert.fexists then fs.vert.mtime else s.vert_last_change

/-- Modification time reload_shader sees for the fragment file. -/
def fragChangeOf (fs : ShaderFS) (s : ShaderState) : Int :=
  if fs.frag.fexists then fs.frag.mtime else s.frag_last_change

/-- Tail of reload_shader once vert_change has been handled: the fragment
update (reading raises when the newer file is unreadable) and the final
changed test. -/
def reloadFragStep (compileOk : String → String → Bool) (fs : ShaderFS)
    (s : ShaderState) (frag_change : Int) (changed : Bool) :
    Except PyError (Bool × ShaderState) :=
  if s.frag_last_change < frag_change then
    if fs.frag.readable then
      Except.ok (finishReload compileOk
        { s with frag_src := fs.frag.text, frag_last_change := frag_change } true)
    else Except.error PyError.oserror
  else Except.ok (finishReload compileOk s changed)
where
  /-- Final lines of reload_shader: recompile and return true when a change
  was consumed, otherwise return false. -/
  finishReload (compileOk : String → String → Bool) (s : ShaderState) (changed : Bool) :
      Bool × ShaderState :=
    if changed then (true, compile_shader compileOk s) else (false, s)

/-- Embedding of Shader.reload_shader: compute the two fresh change times,
re-read each file whose time moved forward, and when anything changed
recompile (through compile_shader, which falls back instead of raising) and
return true. -/
def reload_shader (compileOk : String → String → Bool) (fs : ShaderFS) (s : ShaderState) :
    Except PyError (Bool × ShaderState) :=
  let vert_change := vertChangeOf fs s
  let frag_change := fragChangeOf fs s
  if s.vert_last_change < vert_change then
    if fs.vert.readable then
      reloadFragStep compileOk fs
        { s with vert_src := fs.vert.text, vert_last_change := vert_change }
        frag_change true
    else Except.error PyError.oserror
  else
    reloadFragStep compileOk fs s frag_change false

/-- Whether reload_shader detects a source change in state s against file
system fs. -/
def detectsChange (fs : ShaderFS) (s : ShaderState) : Bool :=
  decide (s.vert_last_change < vertChangeOf fs s)
    || decide (s.frag_last_change < fragChangeOf fs s)

/-- Whether both re-reads reload_shader would perform succeed. -/
def readsOk (fs : ShaderFS) (s : ShaderState) : Bool :=
  (!(decide (s.vert_last_change < vertChangeOf fs s)) || fs.vert.readable)
    && (!(decide (s.frag_last_change < fragChangeOf fs s)) || fs.frag.readable)

/-- The source and change-time updates reload_shader applies before its
changed test. -/
def applyChanges (fs : ShaderFS) (s : ShaderState) : ShaderState :=
  let s1 :=
    if s.vert_last_change < vertChangeOf fs s then
      { s with vert_src := fs.vert.text, vert_last_change := vertChangeOf fs s }
    else s
  if s.frag_last_change < fragChangeOf fs s then
    { s1 with frag_src := fs.frag.text, frag_last_change := fragChangeOf fs s }
  else s1

theorem reload_shader_characterization (compileOk : String → String → Bool)
    (fs : ShaderFS) (s : ShaderState) (hreads : readsOk fs s = true) :
    reload_shader compileOk fs s
      = Except.ok (reloadFragStep.finishReload compileOk (applyChanges fs s)
          (detectsChange fs s)) := by
  by_cases hv : s.vert_last_change < vertChangeOf fs s <;>
    by_cases hf : s.frag_last_change < fragChangeOf fs s
  · unfold readsOk at hreads
    simp [hv, hf] at hreads
    simp [reload_shader, reloadFragStep, applyChanges, detectsChange, hv, hf,
      hreads.1, hreads.2]
  · unfold readsOk at hreads
    simp [hv, hf] at hreads
    simp [reload_shader, reloadFragStep, applyChanges, detectsChange, hv, hf, hreads]
  · unfold readsOk at hreads
    simp [hv, hf] at hreads
    simp [reload_shader, reloadFragStep, applyChanges, detectsChange, hv, hf, hreads]
  · simp [reload_shader, reloadFragStep, applyChanges, detectsChange, hv, hf]

/-- Claim C5, counterexample: with both shader files present, regular and
readable and a compiler that rejects their sources, Shader.__init__ does
not raise — it completes and produces a Shader whose active program is the
built-in fallback (error) program. -/
theorem shader_init_compile_failure_counterexample :
    Shader.init (fun _ _ => false)
        ⟨⟨true, true, true, "V", 0⟩, ⟨true, true, true, "F", 0⟩⟩
      = Except.ok ⟨"V", "F", 0, 0, GlProgram.errorProgram⟩ := rfl

/-- Claim C5 (amended): if either shader file is missing, not a regular
file, or unreadable, Shader.__init__ raises and no Shader object is
produced; but a failure of the initial compilation is not fatal —
construction completes through compile_shader, which substitutes the
built-in fallback (error) program. -/
theorem shader_init_spec (compileOk : String → String → Bool) (fs : ShaderFS) :
    ((fs.vert.fexists = false ∨ fs.vert.isFile = false ∨ fs.frag.fexists = false
        ∨ fs.frag.isFile = false ∨ fs.vert.readable = false ∨ fs.frag.readable = false) →
      ∃ e, Shader.init compileOk fs = Except.error e) ∧
    (fs.vert.fexists = true → fs.vert.isFile = true → fs.frag.fexists = true →
      fs.frag.isFile = true → fs.vert.readable = true → fs.frag.readable = true →
      Shader.init compileOk fs
        = Except.ok (compile_shader compileOk
            { vert_src := fs.vert.text
              frag_src := fs.frag.text
              vert_last_change := fs.vert.mtime
              frag_last_change := fs.frag.mtime
              program := GlProgram.errorProgram }) ∧
      (compileOk fs.vert.text fs.frag.text = false →
        ∃ s, Shader.init compileOk fs = Except.ok s ∧ s.program = GlProgram.errorProgram)) := by
  constructor
  · intro h
    by_cases h1 : fs.vert.fexists = false
    · exact ⟨PyError.runtimeError "Vertex shader does not exist.", by simp [Shader.init, h1]⟩
    · by_cases h2 : fs.vert.isFile = false
      · exact ⟨PyError.runtimeError "Vertex shader is not a file.",
          by simp [Shader.init, h1, h2]⟩
      · by_cases h3 : fs.frag.fexists = false
        · exact ⟨PyError.runtimeError "Fragment shader does not exist.",
            by simp [Shader.init, h1, h2, h3]⟩
        · by_cases h4 : fs.frag.isFile = false
          · exact ⟨PyError.runtimeError "Fragment shader is not a file.",
              by simp [Shader.init, h1, h2, h3, h4]⟩
          · by_cases h5 : fs.vert.readable = false
            · exact ⟨PyError.runtimeError "Vertex shader loaded failed.",
                by simp [Shader.init, h1, h2, h3, h4, h5]⟩
            · by_cases h6 : fs.frag.readable = false
              · exact ⟨PyError.runtimeError "Fragment shader loaded failed.",
                  by simp [Shader.init, h1, h2, h3, h4, h5, h6]⟩
              · rcases h with h | h | h | h | h | h <;> simp_all
  · intro hv1 hv2 hf1 hf2 hvr hfr
    constructor
    · simp [Shader.init, hv1, hv2, hf1, hf2, hvr, hfr]
    · intro hc
      refine ⟨compile_shader compileOk
        { vert_src := fs.vert.text
          frag_src := fs.frag.text
          vert_last_change := fs.vert.mtime
          frag_last_change := fs.frag.mtime
          program := GlProgram.errorProgram }, ?_, ?_⟩
      · simp [Shader.init, hv1, hv2, hf1, hf2, hvr, hfr]
      · simp [compile_shader, hc]

/-- Claim C5 witness: a missing vertex file makes construction fail, and
good files with a failing compiler make it succeed with the fallback
program active. -/
theorem shader_init_spec_witness :
    (∃ e, Shader.init (fun _ _ => false)
        ⟨⟨false, true, true, "V", 0⟩, ⟨true, true, true, "F", 0⟩⟩ = Except.error e) ∧
    (∃ s, Shader.init (fun _ _ => false)
        ⟨⟨true, true, true, "V", 1⟩, ⟨true, true, true, "F", 1⟩⟩ = Except.ok s
      ∧ s.program = GlProgram.errorProgram) :=
  ⟨(shader_init_spec (fun _ _ => false)
      ⟨⟨false, true, true, "V", 0⟩, ⟨true, true, true, "F", 0⟩⟩).1 (Or.inl rfl),
   ((shader_init_spec (fun _ _ => false)
      ⟨⟨true, true, true, "V", 1⟩, ⟨true, true, true, "F", 1⟩⟩).2
      rfl rfl rfl rfl rfl rfl).2 rfl⟩

/-- Claim C6: when reload_shader detects a source change and can re-read
the changed files, it returns normally with true; a failing recompilation
does not raise — the active program becomes the fallback error program —
while a succeeding recompilation installs the newly compiled program; and
the updated state remains eligible for recompilation at the next detected
change. -/
theorem reload_shader_fallback_and_retry (compileOk : String → String → Bool)
    (fs : ShaderFS) (s : ShaderState)
    (hchanged : detectsChange fs s = true) (hreads : readsOk fs s = true) :
    reload_shader compileOk fs s
      = Except.ok (true, compile_shader compileOk (applyChanges fs s)) ∧
    (compileOk (applyChanges fs s).vert_src (applyChanges fs s).frag_src = false →
      (compile_shader compileOk (applyChanges fs s)).program = GlProgram.errorProgram) ∧
    (compileOk (applyChanges fs s).vert_src (applyChanges fs s).frag_src = true →
      (compile_shader compileOk (applyChanges fs s)).program
        = GlProgram.compiled (applyChanges fs s).vert_src (applyChanges fs s).frag_src) ∧
    (∀ (compileOk2 : String → String → Bool) (fs2 : ShaderFS),
      detectsChange fs2 (compile_shader compileOk (applyChanges fs s)) = true →
      readsOk fs2 (compile_shader compileOk (applyChanges fs s)) = true →
      reload_shader compileOk2 fs2 (compile_shader compileOk (applyChanges fs s))
        = Except.ok (true, compile_shader compileOk2
            (applyChanges fs2 (compile_shader compileOk (applyChanges fs s))))) := by
  refine ⟨?_, ?_, ?_, ?_⟩
  · rw [reload_shader_characterization compileOk fs s hreads, hchanged]
    simp [reloadFragStep.finishReload]
  · intro h
    simp [compile_shader, h]
  · intro h
    simp [compile_shader, h]
  · intro compileOk2 fs2 h2 r2
    rw [reload_shader_characterization compileOk2 fs2 _ r2, h2]
    simp [reloadFragStep.finishReload]

/-- Claim C6 witness: a vertex-source edit (mtime 0 to 1) with a rejecting
compiler reloads into the fallback program without raising. -/
theorem reload_shader_fallback_and_retry_witness :
    detectsChange ⟨⟨true, true, true, "V2", 1⟩, ⟨true, true, true, "F", 0⟩⟩
        ⟨"V1", "F", 0, 0, GlProgram.compiled "V1" "F"⟩ = true ∧
    readsOk ⟨⟨true, true, true, "V2", 1⟩, ⟨true, true, true, "F", 0⟩⟩
        ⟨"V1", "F", 0, 0, GlProgram.compiled "V1" "F"⟩ = true ∧
    reload_shader (fun _ _ => false)
        ⟨⟨true, true, true, "V2", 1⟩, ⟨true, true, true, "F", 0⟩⟩
        ⟨"V1", "F", 0, 0, GlProgram.compiled "V1" "F"⟩
      = Except.ok (true, compile_shader (fun _ _ => false)
          (applyChanges ⟨⟨true, true, true, "V2", 1⟩, ⟨true, true, true, "F", 0⟩⟩
            ⟨"V1", "F", 0, 0, GlProgram.compiled "V1" "F"⟩)) ∧
    (compile_shader (fun _ _ => false)
        (applyChanges ⟨⟨true, true, true, "V2", 1⟩, ⟨true, true, true, "F", 0⟩⟩
          ⟨"V1", "F", 0, 0, GlProgram.compiled "V1" "F"⟩)).program
      = GlProgram.errorProgram := by
  have h := reload_shader_fallback_and_retry (fun _ _ => false)
    ⟨⟨true, true, true, "V2", 1⟩, ⟨true, true, true, "F", 0⟩⟩
    ⟨"V1", "F", 0, 0, GlProgram.compiled "V1" "F"⟩ (by decide) (by decide)
  exact ⟨by decide, by decide, h.1, h.2.1 rfl⟩

/-! ### Interactive camera angle updates (mesh_viewer/window.py)

Every interactive update of theta or phi — the drag widgets of the camera
control window (lines 221-239) and the trackpad and middle-mouse paths of
the render loop (lines 440-456) — assigns
(value + np.pi) % (2 * np.pi) - np.pi.  The Python float modulo is
embedded over the reals: a % b = a - b * floor(a / b), which for b > 0
lands in [0, b). -/

noncomputable section

/-- Python modulo on reals: a % b = a - b * floor(a / b). -/
def pymod (a b : ℝ) : ℝ := a - b * ⌊a / b⌋

/-- The renormalization applied after every interactive theta or phi
update: x maps to ((x + pi) mod 2 pi) - pi. -/
def wrapAngle (x : ℝ) : ℝ := pymod (x + Real.pi) (2 * Real.pi) - Real.pi

/-- Angle state after a drag widget of the camera control window reports
the edited value v: the stored angle becomes wrapAngle v. -/
def dragAngleUpdate (v : ℝ) : ℝ := wrapAngle v

/-- Angle state after a trackpad scroll step of the render loop:
angle -= scroll / 100 * sensitivity, then wrap. -/
def trackpadAngleUpdate (angle scroll sensitivity : ℝ) : ℝ :=
  wrapAngle (angle - scroll / 100 * sensitivity)

/-- Angle state after a middle-mouse drag step of the render loop:
angle -= delta / 100 * sensitivity, then wrap. -/
def mouseAngleUpdate (angle delta sensitivity : ℝ) : ℝ :=
  wrapAngle (angle - delta / 100 * sensitivity)

end

theorem pymod_eq_fract (a b : ℝ) (hb : b ≠ 0) : pymod a b = b * Int.fract (a / b) := by
  rw [pymod, Int.fract]
  field_simp

theorem wrapAngle_mem_Ico (x : ℝ) : wrapAngle x ∈ Set.Ico (-Real.pi) Real.pi := by
  have h2 : (0 : ℝ) < 2 * Real.pi := by positivity
  rw [wrapAngle, pymod_eq_fract _ _ (ne_of_gt h2)]
  constructor
  · have := Int.fract_nonneg ((x + Real.pi) / (2 * Real.pi))
    nlinarith
  · have := Int.fract_lt_one ((x + Real.pi) / (2 * Real.pi))
    nlinarith

theorem wrapAngle_pi : wrapAngle Real.pi = -Real.pi := by
  have h2 : (2 : ℝ) * Real.pi ≠ 0 := by positivity
  have hd : (Real.pi + Real.pi) / (2 * Real.pi) = 1 := by
    field_simp
    ring
  rw [wrapAngle, pymod, hd]
  simp
  ring

/-- Claim C7, counterexample: dragging theta to the value pi leaves the
angle at -pi, which is outside the interval (-pi, pi] the claim names, so
interactive updates do not renormalize into (-pi, pi]. -/
theorem angle_wrap_counterexample :
    dragAngleUpdate Real.pi = -Real.pi ∧
    -Real.pi ∉ Set.Ioc (-Real.pi) Real.pi := by
  refine ⟨wrapAngle_pi, ?_⟩
  simp

/-- Claim C7 (amended): after every interactive camera update — drag
widget, trackpad step or middle-mouse step — theta and phi are
renormalized by x maps to ((x + pi) mod 2 pi) - pi into the half-open
interval [-pi, pi) (Python modulo with positive divisor is non-negative
and below the divisor, so the left endpoint is the included one). -/
theorem angle_wrap_into_Ico :
    (∀ x : ℝ, wrapAngle x ∈ Set.Ico (-Real.pi) Real.pi) ∧
    (∀ v : ℝ, dragAngleUpdate v ∈ Set.Ico (-Real.pi) Real.pi) ∧
    (∀ angle scroll sensitivity : ℝ,
      trackpadAngleUpdate angle scroll sensitivity ∈ Set.Ico (-Real.pi) Real.pi) ∧
    (∀ angle delta sensitivity : ℝ,
      mouseAngleUpdate angle delta sensitivity ∈ Set.Ico (-Real.pi) Real.pi) :=
  ⟨fun x => wrapAngle_mem_Ico x,
   fun v => wrapAngle_mem_Ico v,
   fun angle scroll sensitivity => wrapAngle_mem_Ico (angle - scroll / 100 * sensitivity),
   fun angle delta sensitivity => wrapAngle_mem_Ico (angle - delta / 100 * sensitivity)⟩

/-! ### Viewport matrices (viewport.py 168-204)

The view matrix is written only by update_view_mat, the projection matrix
only by update_orthogonal_mat and update_perspective_mat.  The glm calls
are embedded as 4 by 4 real matrices with the standard glm formulas. -/

noncomputable section

/-- Four-by-four real matrix, the embedding of glm.mat4x4. -/
abbrev Mat4 := Matrix (Fin 4) (Fin 4) ℝ

/-- Embedding of glm.translate. -/
def glm_translate (x y z : ℝ) : Mat4 :=
  !![1, 0, 0, x; 0, 1, 0, y; 0, 0, 1, z; 0, 0, 0, 1]

/-- Embedding of glm.mat4_cast: the rotation matrix of a quaternion. -/
def glm_mat4_cast (q : Quaternion ℝ) : Mat4 :=
  let w := q.re
  let x := q.imI
  let y := q.imJ
  let z := q.imK
  !![1 - 2*(y^2 + z^2), 2*(x*y - w*z), 2*(x*z + w*y), 0;
     2*(x*y + w*z), 1 - 2*(x^2 + z^2), 2*(y*z - w*x), 0;
     2*(x*z - w*y), 2*(y*z + w*x), 1 - 2*(x^2 + y^2), 0;
     0, 0, 0, 1]

/-- Embedding of glm.inverse. -/
def glm_inverse (m : Mat4) : Mat4 := m⁻¹

/-- Embedding of glm.ortho. -/
def glm_ortho (l r b t n f : ℝ) : Mat4 :=
  !![2/(r - l), 0, 0, -(r + l)/(r - l);
     0, 2/(t - b), 0, -(t + b)/(t - b);
     0, 0, -2/(f - n), -(f + n)/(f - n);
     0, 0, 0, 1]

/-- Embedding of glm.perspective. -/
def glm_perspective (fov_y aspect n f : ℝ) : Mat4 :=
  let tanHalf := Real.tan (fov_y / 2)
  !![1/(aspect * tanHalf), 0, 0, 0;
     0, 1/tanHalf, 0, 0;
     0, 0, -(f + n)/(f - n), -(2*f*n)/(f - n);
     0, 0, -1, 0]

/-- Matrix state of a Viewport (viewport.py class attributes relevant to
the camera): the aspect ratio and the three matrices. -/
structure ViewportState where
  aspect : ℝ
  model_mat : Mat4
  view_mat : Mat4
  perspective_mat : Mat4

/-- Embedding of Viewport.update_view_mat: view_mat becomes the inverse of
the camera-to-world transform; no other field is assigned. -/
def Viewport.update_view_mat (s : ViewportState) (cam_pos : ℝ × ℝ × ℝ)
    (cam_rot : Quaternion ℝ) : ViewportState :=
  { s with view_mat :=
      glm_inverse (glm_translate cam_pos.1 cam_pos.2.1 cam_pos.2.2 * glm_mat4_cast cam_rot) }

/-- Embedding of Viewport.update_orthogonal_mat: perspective_mat becomes a
symmetric orthogonal frustum of width scale and height scale / aspect; no
other field is assigned. -/
def Viewport.update_orthogonal_mat (s : ViewportState) (scale near far : ℝ) : ViewportState :=
  let cam_orth_width := scale
  let cam_orth_height := cam_orth_width / s.aspect
  { s with perspective_mat :=
      (glm_ortho (-cam_orth_width / 2) (cam_orth_width / 2)
        (-cam_orth_height / 2) (cam_orth_height / 2) near far) }

/-- Embedding of Viewport.update_perspective_mat: perspective_mat becomes
the perspective projection for the degree field of view converted to
radians; no other field is assigned. -/
def Viewport.update_perspective_mat (s : ViewportState) (fov near far : ℝ) : ViewportState :=
  let fov_y := (fov / 180) * Real.pi
  { s with perspective_mat := glm_perspective fov_y s.aspect near far }

end

/-- Claim C8: updating only view parameters leaves the projection matrix
unchanged, and updating only projection parameters (orthogonal or
perspective, with near below far) leaves the view matrix unchanged. -/
theorem view_projection_independent :
    (∀ (s : ViewportState) (cam_pos : ℝ × ℝ × ℝ) (cam_rot : Quaternion ℝ),
      (Viewport.update_view_mat s cam_pos cam_rot).perspective_mat = s.perspective_mat) ∧
    (∀ (s : ViewportState) (scale near far : ℝ), near < far →
      (Viewport.update_orthogonal_mat s scale near far).view_mat = s.view_mat) ∧
    (∀ (s : ViewportState) (fov near far : ℝ), near < far →
      (Viewport.update_perspective_mat s fov near far).view_mat = s.view_mat) :=
  ⟨fun _ _ _ => rfl, fun _ _ _ _ _ => rfl, fun _ _ _ _ _ => rfl⟩

/-- Claim C8 witness: evaluated on a concrete viewport state with identity
matrices, scale 10, near 1, far 2 and fov 90. -/
theorem view_projection_independent_witness :
    (Viewport.update_view_mat ⟨1, 1, 1, 1⟩ (0, 0, 0) 1).perspective_mat
      = (⟨1, 1, 1, 1⟩ : ViewportState).perspective_mat ∧
    ((1 : ℝ) < 2 ∧
      (Viewport.update_orthogonal_mat ⟨1, 1, 1, 1⟩ 10 1 2).view_mat
        = (⟨1, 1, 1, 1⟩ : ViewportState).view_mat) ∧
    (Viewport.update_perspective_mat ⟨1, 1, 1, 1⟩ 90 1 2).view_mat
      = (⟨1, 1, 1, 1⟩ : ViewportState).view_mat :=
  ⟨view_projection_independent.1 ⟨1, 1, 1, 1⟩ (0, 0, 0) 1,
   ⟨one_lt_two, view_projection_independent.2.1 ⟨1, 1, 1, 1⟩ 10 1 2 one_lt_two⟩,
   view_projection_independent.2.2 ⟨1, 1, 1, 1⟩ 90 1 2 one_lt_two⟩

/-! ### Per-frame uniform writes (Viewport.render, viewport.py 221-272)

A moderngl program is embedded by its reflection: the association of
member names to member kinds (uniform, attribute, other).  The name-in
test of the code is lookup success; the type(u) is Uniform test is the
uniform kind.  The render body writes, for the mesh program, each of
mat_M, mat_V, mat_P, mat_MV, mat_MVP that its reflection declares as a
uniform, and for the wire program those five plus wire_color.  No
base_color write appears anywhere in Viewport.render. -/

/-- Kind of a moderngl program member. -/
inductive MemberKind where
  | uniform
  | attrib
  | other
deriving DecidableEq

/-- Reflection of a compiled program: its named members. -/
structure ProgramReflection where
  members : List (String × MemberKind)
deriving DecidableEq

/-- Whether the program declares name as a uniform (the name-in test
followed by the type-is-Uniform test). -/
def memberIsUniform (p : ProgramReflection) (name : String) : Bool :=
  match p.members.lookup name with
  | some MemberKind.uniform => true
  | _ => false

/-- The write the render body performs for one guarded uniform: the name
is emitted exactly when the program declares it as a uniform. -/
def uniformWrite (p : ProgramReflection) (name : String) : List String :=
  match p.members.lookup name with
  | some MemberKind.uniform => [name]
  | _ => []

/-- The five matrix uniform names of the fixed contract. -/
def matUniformNames : List String := ["mat_M", "mat_V", "mat_P", "mat_MV", "mat_MVP"]

/-- Uniform names Viewport.render writes to the mesh program, in source
order (viewport.py 228-247). -/
def meshUniformWrites (p : ProgramReflection) : List String :=
  uniformWrite p "mat_M" ++ uniformWrite p "mat_V" ++ uniformWrite p "mat_P"
    ++ uniformWrite p "mat_MV" ++ uniformWrite p "mat_MVP"

/-- Uniform names Viewport.render writes to the wireframe program, in
source order (viewport.py 249-272). -/
def wireUniformWrites (p : ProgramReflection) : List String :=
  uniformWrite p "mat_M" ++ uniformWrite p "mat_V" ++ uniformWrite p "mat_P"
    ++ uniformWrite p "mat_MV" ++ uniformWrite p "mat_MVP" ++ uniformWrite p "wire_color"

theorem mem_uniformWrite_iff (p : ProgramReflection) (s n : String) :
    n ∈ uniformWrite p s ↔ n = s ∧ memberIsUniform p s = true := by
  unfold uniformWrite memberIsUniform
  rcases h : p.members.lookup s with _ | k
  · simp
  · cases k <;> simp

/-- Claim C9, counterexample: a mesh program whose reflection declares the
base_color uniform of the fixed contract receives no base_color write from
Viewport.render (nor would the wireframe program), refuting that every
declared uniform among the seven contract names is written. -/
theorem base_color_not_written_counterexample :
    memberIsUniform ⟨[("base_color", MemberKind.uniform)]⟩ "base_color" = true ∧
    "base_color" ∉ meshUniformWrites ⟨[("base_color", MemberKind.uniform)]⟩ ∧
    "base_color" ∉ wireUniformWrites ⟨[("base_color", MemberKind.uniform)]⟩ := by
  refine ⟨rfl, ?_, ?_⟩ <;> decide

/-- Claim C9 (amended): in every per-frame Viewport.render call, each of
the matrix uniforms mat_M, mat_V, mat_P, mat_MV, mat_MVP that a program
declares is written for both the mesh and the wireframe program, and
wire_color is written for the wireframe program when declared; absence of
a uniform is not an error — only declared uniforms are ever written — but
base_color is written to neither program and wire_color is not written to
the mesh program, even when declared. -/
theorem render_uniform_writes_spec (p : ProgramReflection) :
    (∀ name ∈ matUniformNames, memberIsUniform p name = true →
      name ∈ meshUniformWrites p ∧ name ∈ wireUniformWrites p) ∧
    (memberIsUniform p "wire_color" = true → "wire_color" ∈ wireUniformWrites p) ∧
    "base_color" ∉ meshUniformWrites p ∧
    "base_color" ∉ wireUniformWrites p ∧
    "wire_color" ∉ meshUniformWrites p ∧
    (∀ name, name ∈ meshUniformWrites p → memberIsUniform p name = true) ∧
    (∀ name, name ∈ wireUniformWrites p → memberIsUniform p name = true) := by
  refine ⟨?_, ?_, ?_, ?_, ?_, ?_, ?_⟩
  · intro name hname hdecl
    fin_cases hname <;>
      constructor <;>
        simp [meshUniformWrites, wireUniformWrites, mem_uniformWrite_iff, hdecl]
  · intro hdecl
    simp [wireUniformWrites, mem_uniformWrite_iff, hdecl]
  · simp [meshUniformWrites, mem_uniformWrite_iff]
  · simp [wireUniformWrites, mem_uniformWrite_iff]
  · simp [meshUniformWrites, mem_uniformWrite_iff]
  · intro name hn
    simp only [meshUniformWrites, List.mem_append, mem_uniformWrite_iff] at hn
    rcases hn with ((((⟨rfl, h⟩ | ⟨rfl, h⟩) | ⟨rfl, h⟩) | ⟨rfl, h⟩) | ⟨rfl, h⟩) <;> exact h
  · intro name hn
    simp only [wireUniformWrites, List.mem_append, mem_uniformWrite_iff] at hn
    rcases hn with (((((⟨rfl, h⟩ | ⟨rfl, h⟩) | ⟨rfl, h⟩) | ⟨rfl, h⟩) | ⟨rfl, h⟩) | ⟨rfl, h⟩) <;>
      exact h

/-- Claim C9 witness: the amended statement at a reflection declaring all
seven contract names as uniforms, instantiated at mat_M. -/
theorem render_uniform_writes_spec_witness :
    "mat_M" ∈ matUniformNames ∧
    memberIsUniform ⟨[("mat_M", MemberKind.uniform), ("mat_V", MemberKind.uniform),
      ("mat_P", MemberKind.uniform), ("mat_MV", MemberKind.uniform),
      ("mat_MVP", MemberKind.uniform), ("base_color", MemberKind.uniform),
      ("wire_color", MemberKind.uniform)]⟩ "mat_M" = true ∧
    ("mat_M" ∈ meshUniformWrites ⟨[("mat_M", MemberKind.uniform), ("mat_V", MemberKind.uniform),
      ("mat_P", MemberKind.uniform), ("mat_MV", MemberKind.uniform),
      ("mat_MVP", MemberKind.uniform), ("base_color", MemberKind.uniform),
      ("wire_color", MemberKind.uniform)]⟩ ∧
     "mat_M" ∈ wireUniformWrites ⟨[("mat_M", MemberKind.uniform), ("mat_V", MemberKind.uniform),
      ("mat_P", MemberKind.uniform), ("mat_MV", MemberKind.uniform),
      ("mat_MVP", MemberKind.uniform), ("base_color", MemberKind.uniform),
      ("wire_color", MemberKind.uniform)]⟩) :=
  ⟨by decide, by decide,
   (render_uniform_writes_spec ⟨[("mat_M", MemberKind.uniform), ("mat_V", MemberKind.uniform),
      ("mat_P", MemberKind.uniform), ("mat_MV", MemberKind.uniform),
      ("mat_MVP", MemberKind.uniform), ("base_color", MemberKind.uniform),
      ("wire_color", MemberKind.uniform)]⟩).1 "mat_M" (by decide) (by decide)⟩

/-! ### The per-frame mesh update call (MeshViewerWindow.render, window.py 350)

The first statement of MeshViewerWindow.render is
self.viewport.update_mesh(self.mesh_loader).  The Viewport class
(viewport.py) defines no attribute named update_mesh anywhere — its
methods are __init__, load_shader, update_shader, load_mesh, assemble_vao,
resize, update_view_mat, update_orthogonal_mat, update_perspective_mat and
render, and nothing in the repository assigns an update_mesh attribute —
so CPython attribute lookup raises AttributeError on every frame.  The
polling and rebinding behavior the claim describes is implemented by
Viewport.load_mesh, which nothing calls. -/

/-- Every attribute a Viewport instance carries: the methods of the class
body, its class attributes with default values, and every instance
attribute assigned in any of its methods (viewport.py 25-284). -/
def viewportAttrs : List String :=
  ["size", "aspect", "clear_color", "draw_wire_frame", "wire_color",
   "model_mat", "view_mat", "perspective_mat", "mesh_ibo", "wire_ibo",
   "ctx", "render_texture", "depth_buffer", "fbo", "vbo_list", "wire_program",
   "mesh_shader", "mesh_program", "mesh_vao", "wire_vao",
   "__init__", "load_shader", "update_shader", "load_mesh", "assemble_vao",
   "resize", "update_view_mat", "update_orthogonal_mat", "update_perspective_mat",
   "render"]

/-- CPython attribute lookup: the attribute when the object carries it,
AttributeError otherwise. -/
def pyGetattr (attrs : List String) (name : String) : Except PyError String :=
  if attrs.contains name then Except.ok name else Except.error (PyError.attributeError name)

/-- The attribute lookup performed by the first statement of
MeshViewerWindow.render: self.viewport.update_mesh. -/
def meshViewerWindowUpdateMeshLookup : Except PyError String :=
  pyGetattr viewportAttrs "update_mesh"

/-- Claim C1: the per-frame mesh-update call of MeshViewerWindow.render
resolves self.viewport.update_mesh, which is not an attribute of Viewport,
so the call raises AttributeError on every frame; the operation the claim
describes exists on Viewport under the name load_mesh. -/
theorem update_mesh_call_raises_attribute_error :
    meshViewerWindowUpdateMeshLookup = Except.error (PyError.attributeError "update_mesh") ∧
    viewportAttrs.contains "load_mesh" = true := by
  constructor
  · rfl
  · decide
